import Mathlib

/-!
Verification of `verify_label_standardization.py` — a GitHub label-color
standardization auditing script.

The script is shallowly embedded here.  Python strings are modelled as
`List Char` (a Python `str` is a sequence of code points); the handful of
string primitives the script uses (`split`, `strip`, `lower`, `startswith`,
substring containment via `in`, `replace`) are defined below with Python's
semantics.  Network I/O is modelled by explicit per-endpoint events
(HTTP status + decoded JSON payload, or a raised transport exception), and
console output by an explicit list of log entries, each carrying the step
that produced it, the stream it was printed to, its role, a numeric id of
the originating `print` statement, and the message text.
-/

/-- Python strings are sequences of code points. -/
abbrev Str := List Char

/-- Characters stripped by Python's `str.strip()` (the ones relevant to this
script's ASCII table cells). -/
def isSpaceChar (c : Char) : Bool :=
  c = ' ' || c = '\t' || c = '\r' || c = '\n'

/-- Python `s.strip()`. -/
def pyStrip (s : Str) : Str :=
  ((s.dropWhile isSpaceChar).reverse.dropWhile isSpaceChar).reverse

/-- Python `s.split(sep)` for a one-character separator (the script only
splits on `"|"` and `"\n"`). -/
def pySplit (sep : Char) : Str → List Str
  | [] => [[]]
  | c :: tl =>
    if c = sep then [] :: pySplit sep tl
    else
      match pySplit sep tl with
      | [] => [[c]]
      | hd :: rest => (c :: hd) :: rest

/-- ASCII lowering of one character, as Python `str.lower()` acts on the
ASCII letters appearing in this script's configuration strings. -/
def lowerChar (c : Char) : Char :=
  if 65 ≤ c.toNat && c.toNat ≤ 90 then Char.ofNat (c.toNat + 32) else c

/-- Python `s.lower()`. -/
def pyLower (s : Str) : Str := s.map lowerChar

/-- Python `s.startswith(pre)`. -/
def strStartsWith (s pre : Str) : Bool := pre.isPrefixOf s

/-- Python `pat in s` (substring containment). -/
def strContains (s pat : Str) : Bool :=
  match s with
  | [] => pat.isEmpty
  | _ :: tl => pat.isPrefixOf s || strContains tl pat

/-- Fuel-driven worker for `pyReplace`; the fuel is an upper bound on the
length of the remaining string, so it never runs out. -/
def pyReplaceAux (old new : Str) : Nat → Str → Str
  | _, [] => []
  | 0, s => s
  | fuel + 1, c :: tl =>
    if old.isPrefixOf (c :: tl) ∧ old ≠ [] then
      new ++ pyReplaceAux old new fuel (tl.drop (old.length - 1))
    else
      c :: pyReplaceAux old new fuel tl

/-- Python `s.replace(old, new)` (all occurrences). -/
def pyReplace (old new s : Str) : Str := pyReplaceAux old new s.length s

/-- Python `str(n)` for a natural number. -/
def natToStr (n : Nat) : Str := (toString n).data

/-!
## Table parser

Source: `_parse_label_table(content, table_header)`, lines 67–92.  The loop
body checks, in order: (1) a line containing the header marker sets the
in-table flag and is skipped via `continue`; (2) inside the table, a line
starting with `"|---"` is skipped via `continue`; (3) inside the table, a
line starting with `"|"` is split on `"|"`, each part stripped, and if there
are at least 4 parts, part 1 is appended when it is truthy (non-empty) and
not the literal `"Label Name"`; (4) inside the table, a non-empty line not
starting with `"|"` breaks out of the loop.  Branch (3) does not `continue`,
but when it fires, branch (4)'s condition is false, so the if-else chain
below is equivalent to the source's sequence of `if` statements.
-/

/-- Loop of `_parse_label_table`: remaining lines, the `in_table` flag, and
the `documented_labels` accumulator. -/
def parseLoop (tableHeader : Str) : List Str → Bool → List Str → List Str
  | [], _, acc => acc
  | line :: rest, inTable, acc =>
    if strContains line tableHeader then
      parseLoop tableHeader rest true acc
    else if inTable && strStartsWith line "|---".data then
      parseLoop tableHeader rest inTable acc
    else if inTable && strStartsWith line "|".data then
      let parts := (pySplit '|' line).map pyStrip
      if 4 ≤ parts.length then
        if parts.getD 1 [] ≠ [] ∧ parts.getD 1 [] ≠ "Label Name".data then
          parseLoop tableHeader rest inTable (acc ++ [parts.getD 1 []])
        else
          parseLoop tableHeader rest inTable acc
      else
        parseLoop tableHeader rest inTable acc
    else if inTable && line ≠ [] then
      acc
    else
      parseLoop tableHeader rest inTable acc

/-- `_parse_label_table(content, table_header)`: split the document on
newlines and run the scanning loop with the flag initially false. -/
def parseLabelTable (content tableHeader : Str) : List Str :=
  parseLoop tableHeader (pySplit '\n' content) false []

example : parseLabelTable "| Label Name | Color Hex | Category |\n|---|---|---|\n| bug | #d73a4a | core |\n| task | #ffffff | core |".data "| Label Name | Color Hex | Category |".data = ["bug".data, "task".data] := by decide

example : parseLabelTable "| Label Name | Color Hex | Category |\n| a |\n| bug | #d73a4a | core |".data "| Label Name | Color Hex | Category |".data = ["bug".data] := by decide

/-!
## Parser lemmas
-/

lemma isPrefixOf_self (s : Str) : s.isPrefixOf s = true := by
  induction s with
  | nil => rfl
  | cons c tl ih => simp [List.isPrefixOf, ih]

lemma strContains_self (s : Str) : strContains s s = true := by
  cases s with
  | nil => rfl
  | cons c tl => simp [strContains, isPrefixOf_self]

lemma not_startsWith_sep_of_not_pipe (line : Str)
    (h : strStartsWith line "|".data = false) :
    strStartsWith line "|---".data = false := by
  cases line with
  | nil => rfl
  | cons c tl =>
    simp [strStartsWith, List.isPrefixOf] at h ⊢
    exact fun hc => absurd hc h

/-- While inside the table, a non-separator line starting with `|` is split
on `|`, and part 1 is appended exactly when there are at least 4 parts and
part 1 is non-empty and differs from the literal "Label Name". -/
lemma parseLoop_row_step (hdr line : Str) (rest acc : List Str)
    (hhdr : strContains line hdr = false)
    (hsep : strStartsWith line "|---".data = false)
    (hpipe : strStartsWith line "|".data = true) :
    parseLoop hdr (line :: rest) true acc =
      parseLoop hdr rest true
        (if 4 ≤ ((pySplit '|' line).map pyStrip).length ∧
            ((pySplit '|' line).map pyStrip).getD 1 [] ≠ [] ∧
            ((pySplit '|' line).map pyStrip).getD 1 [] ≠ "Label Name".data
         then acc ++ [((pySplit '|' line).map pyStrip).getD 1 []] else acc) := by
  simp only [parseLoop, hhdr, hsep, hpipe, Bool.true_and, Bool.false_eq_true,
    if_false, if_true]
  split_ifs <;> first | rfl | tauto

/-- While inside the table, a non-empty line that neither starts with `|`
nor contains the header marker breaks out of the scanning loop. -/
lemma parseLoop_break (hdr line : Str) (rest acc : List Str)
    (hhdr : strContains line hdr = false)
    (hne : line ≠ [])
    (hpipe : strStartsWith line "|".data = false) :
    parseLoop hdr (line :: rest) true acc = acc := by
  simp only [parseLoop, hhdr, hpipe, not_startsWith_sep_of_not_pipe line hpipe,
    Bool.true_and, Bool.false_eq_true, if_false, hne, decide_not]
  simp [hne]

/-- A blank line inside the table is skipped without ending the scan. -/
lemma parseLoop_blank (hdr : Str) (rest acc : List Str) :
    parseLoop hdr ([] :: rest) true acc = parseLoop hdr rest true acc := by
  cases h : strContains [] hdr with
  | true => simp [parseLoop, h]
  | false => simp [parseLoop, h, strStartsWith, List.isPrefixOf]

/-!
## Claims about the table parser (C1, C2, C10)
-/

/-- C1, counterexample: while inside the table, the row `"|| x | y |"`
starts with `|`, is not a separator, splits into at least 4 cells, and its
cell at index 1 (the empty string) differs from the literal "Label Name" —
yet nothing is appended: the parse result is empty.  The code additionally
requires the cell to be non-empty, which the claim omits. -/
theorem c1_counterexample :
    parseLabelTable "| Label Name | Color Hex | Category |\n|| x | y |".data
      "| Label Name | Color Hex | Category |".data = [] ∧
    strStartsWith "|| x | y |".data "|".data = true ∧
    strStartsWith "|| x | y |".data "|---".data = false ∧
    4 ≤ ((pySplit '|' "|| x | y |".data).map pyStrip).length ∧
    ((pySplit '|' "|| x | y |".data).map pyStrip).getD 1 [] = [] ∧
    ((pySplit '|' "|| x | y |".data).map pyStrip).getD 1 [] ≠ "Label Name".data := by
  decide

/-- C1, amended: while inside the table, a line beginning with `|` but not
with `|---` (and not containing the header marker) is split on `|`; if the
row has at least 4 cells, the cell at index 1 is appended to the result list
unless it is empty or equals the literal string "Label Name"; rows with
fewer than 4 cells contribute nothing. -/
theorem c1_amended (hdr line : Str) (rest acc : List Str)
    (hhdr : strContains line hdr = false)
    (hsep : strStartsWith line "|---".data = false)
    (hpipe : strStartsWith line "|".data = true) :
    parseLoop hdr (line :: rest) true acc =
      parseLoop hdr rest true
        (if 4 ≤ ((pySplit '|' line).map pyStrip).length ∧
            ((pySplit '|' line).map pyStrip).getD 1 [] ≠ [] ∧
            ((pySplit '|' line).map pyStrip).getD 1 [] ≠ "Label Name".data
         then acc ++ [((pySplit '|' line).map pyStrip).getD 1 []] else acc) :=
  parseLoop_row_step hdr line rest acc hhdr hsep hpipe

/-- C1, witness: a well-formed row appends its cell at index 1. -/
theorem c1_amended_witness :
    parseLoop "| Label Name | Color Hex | Category |".data
      ["| bug | #d73a4a | core |".data] true [] = ["bug".data] := by
  have h := c1_amended "| Label Name | Color Hex | Category |".data
    "| bug | #d73a4a | core |".data [] [] (by decide) (by decide) (by decide)
  rw [h]
  decide

/-- C2, counterexample: with the in-table flag set, the line
`"see | Label Name | Color Hex | Category |"` is non-empty and does not
start with `|`, so by the claim the scan should stop with zero labels; but
because that line contains the header marker as a substring, the code's
marker check (which runs first) skips it with the flag still set, and the
later row still contributes a label: the result is `["bug"]`, not `[]`. -/
theorem c2_counterexample :
    parseLabelTable
      "| Label Name | Color Hex | Category |\nsee | Label Name | Color Hex | Category |\n| bug | #d73a4a | core |".data
      "| Label Name | Color Hex | Category |".data = ["bug".data] ∧
    strStartsWith "see | Label Name | Color Hex | Category |".data "|".data = false ∧
    "see | Label Name | Color Hex | Category |".data ≠ ([] : Str) := by
  refine ⟨by decide, by decide, by decide⟩

/-- C2, amended: once the in-table flag is set, the first non-empty line
that neither starts with `|` nor contains the header marker stops the scan
entirely (whatever lines, including later tables, follow); a blank line
inside the table does not terminate scanning; and a document whose header
marker line is immediately followed by a non-pipe non-blank line not
containing the marker yields zero labels. -/
theorem c2_amended :
    (∀ hdr line : Str, ∀ rest acc : List Str,
       strContains line hdr = false → line ≠ [] →
       strStartsWith line "|".data = false →
       parseLoop hdr (line :: rest) true acc = acc) ∧
    (∀ hdr : Str, ∀ rest acc : List Str,
       parseLoop hdr ([] :: rest) true acc = parseLoop hdr rest true acc) ∧
    (∀ hdr line : Str, ∀ rest : List Str,
       strContains line hdr = false → line ≠ [] →
       strStartsWith line "|".data = false →
       parseLoop hdr (hdr :: line :: rest) false [] = []) := by
  refine ⟨fun hdr line rest acc h1 h2 h3 => parseLoop_break hdr line rest acc h1 h2 h3,
    fun hdr rest acc => parseLoop_blank hdr rest acc,
    fun hdr line rest h1 h2 h3 => ?_⟩
  have hh : strContains hdr hdr = true := strContains_self hdr
  simp only [parseLoop, hh, if_true]
  exact parseLoop_break hdr line rest [] h1 h2 h3

/-- C2, witness: instances of all three amended conjuncts on concrete
documents. -/
theorem c2_amended_witness :
    parseLoop "H".data ["x".data, "| bug | b | c |".data] true ["seed".data] = ["seed".data] ∧
    parseLoop "H".data ([] :: ["x2".data]) true [] = parseLoop "H".data ["x2".data] true [] ∧
    parseLoop "H".data ("H".data :: "x".data :: ["| bug | b | c |".data]) false [] = [] :=
  ⟨c2_amended.1 "H".data "x".data ["| bug | b | c |".data] ["seed".data]
      (by decide) (by decide) (by decide),
    c2_amended.2.1 "H".data ["x2".data] [],
    c2_amended.2.2 "H".data "x".data ["| bug | b | c |".data]
      (by decide) (by decide) (by decide)⟩

/-- C10: the separator skip only fires for lines beginning exactly with
`|---`.  The spaced Markdown separator row `"| --- | --- | --- |"` starts
with `|` but not with `|---`, splits into at least 4 stripped cells whose
cell at index 1 is `"---"`, and so, while inside the table, appends the
string `"---"` to the label list as if it were a label name. -/
theorem c10_spaced_separator_parsed_as_label :
    strStartsWith "| --- | --- | --- |".data "|".data = true ∧
    strStartsWith "| --- | --- | --- |".data "|---".data = false ∧
    4 ≤ ((pySplit '|' "| --- | --- | --- |".data).map pyStrip).length ∧
    ((pySplit '|' "| --- | --- | --- |".data).map pyStrip).getD 1 [] = "---".data ∧
    (∀ hdr : Str, ∀ rest acc : List Str,
       strContains "| --- | --- | --- |".data hdr = false →
       parseLoop hdr ("| --- | --- | --- |".data :: rest) true acc =
         parseLoop hdr rest true (acc ++ ["---".data])) := by
  refine ⟨by decide, by decide, by decide, by decide, fun hdr rest acc h => ?_⟩
  have hx : ((pySplit '|' "| --- | --- | --- |".data).map pyStrip).getD 1 [] =
      "---".data := by decide
  rw [parseLoop_row_step hdr _ rest acc h (by decide) (by decide), hx,
    if_pos ⟨by decide, by decide, by decide⟩]

/-- C10, witness: under the configured header marker, the spaced separator
row contributes `"---"` to the accumulated labels. -/
theorem c10_spaced_separator_witness :
    parseLoop "| Label Name | Color Hex | Category |".data
      ["| --- | --- | --- |".data] true [] =
    parseLoop "| Label Name | Color Hex | Category |".data [] true ["---".data] := by
  have h := c10_spaced_separator_parsed_as_label.2.2.2.2
    "| Label Name | Color Hex | Category |".data [] [] (by decide)
  simpa using h

/-!
## Console output model

Every `print` statement in the script gets a numeric site id:
sites 1–4 live in the API-client helpers, sites 10–60 in the pipeline
(listed at each pipeline step below), sites 70–71 in the `__main__` block.
`step` is the pipeline step (1–9) the line was printed during (0 for
entries created inside a helper, before the caller tags them).
-/

/-- The stream a message was printed to. -/
inductive Chan
  | stdout
  | stderr
deriving DecidableEq

/-- The role of a printed line: progress/success text, an error report, or
the single non-fatal warning. -/
inductive Kind
  | progress
  | error
  | warning
deriving DecidableEq

/-- One printed line. -/
structure Entry where
  step : Nat
  chan : Chan
  kind : Kind
  site : Nat
  msg : Str
deriving DecidableEq

/-- Retag a helper-produced entry with the pipeline step that made the
call. -/
def tagStep (k : Nat) (e : Entry) : Entry :=
  { e with step := k }

/-!
## API client (`_get_github_api`, lines 18–35)

A call's outcome is modelled as an event: either an HTTP response with a
status code and decoded JSON payload (`none` models a JSON `null` body), or
a raised transport-level exception with its message.  The function is total
on events — the model of the source's `try/except` that catches every
exception inside the client.
-/

/-- Outcome of one HTTP GET as seen by the client code. -/
inductive ApiEvent (α : Type)
  | resp (status : Nat) (body : Option α)
  | exn (msg : Str)

/-- Request headers built for the GitHub API. -/
structure Headers where
  authorization : Str
  accept : Str
deriving DecidableEq

/-- `_get_github_api(endpoint, headers, org, repo)`: classify the response.
Site 1: the 404 note; site 2: the other-status error; site 3: the exception
message. -/
def getGithubApi {α : Type} (endpoint : Str) (_headers : Headers)
    (ev : ApiEvent α) : (Bool × Option α) × List Entry :=
  match ev with
  | .resp status body =>
    if status = 200 then ((true, body), [])
    else if status = 404 then
      ((false, none),
        [⟨0, Chan.stderr, Kind.error, 1,
          "[API提示] ".data ++ endpoint ++ " 资源未找到（404）".data⟩])
    else
      ((false, none),
        [⟨0, Chan.stderr, Kind.error, 2,
          "[API错误] ".data ++ endpoint ++ " 状态码：".data ++ natToStr status⟩])
  | .exn m =>
    ((false, none),
      [⟨0, Chan.stderr, Kind.error, 3,
        "[API异常] 调用 ".data ++ endpoint ++ " 失败：".data ++ m⟩])

/-- `_check_branch_exists`: success of `branches/{branch_name}`. -/
def checkBranchExists (branchName : Str) (headers : Headers)
    (ev : ApiEvent Unit) : Bool × List Entry :=
  let r := getGithubApi ("branches/".data ++ branchName) headers ev
  (r.1.1, r.2)

/-- Shape of a `contents/` JSON payload as the script consumes it: the
`content` field is absent or empty (falsy), or present but its
base64/UTF-8 decoding raises, or it decodes to a text. -/
inductive FileJson
  | noContent
  | badDecode (msg : Str)
  | text (s : Str)

/-- `_get_file_content(branch, file_path, headers, org, repo)`.  Site 4 is
the decode-error report. -/
def getFileContent (branch filePath : Str) (headers : Headers)
    (ev : ApiEvent FileJson) : Option Str × List Entry :=
  let r := getGithubApi ("contents/".data ++ filePath ++ "?ref=".data ++ branch)
    headers ev
  match r.1 with
  | (false, _) => (none, r.2)
  | (true, none) => (none, r.2)
  | (true, some fj) =>
    match fj with
    | .noContent => (none, r.2)
    | .badDecode m =>
      (none, r.2 ++
        [⟨0, Chan.stderr, Kind.error, 4,
          "[文件解码错误] ".data ++ filePath ++ "：".data ++ m⟩])
    | .text s => (some s, r.2)

/-- C6: the API client returns `(true, payload)` exactly on HTTP 200, and
`(false, none)` on 404, on every other status, and on a transport-level
exception; being a total function of the event, no exception escapes it. -/
theorem c6_api_client_classification (α : Type) (endpoint : Str)
    (headers : Headers) (ev : ApiEvent α) :
    (∀ body, ev = ApiEvent.resp 200 body →
       (getGithubApi endpoint headers ev).1 = (true, body)) ∧
    (∀ body, ev = ApiEvent.resp 404 body →
       (getGithubApi endpoint headers ev).1 = (false, none)) ∧
    (∀ status body, ev = ApiEvent.resp status body → status ≠ 200 →
       status ≠ 404 → (getGithubApi endpoint headers ev).1 = (false, none)) ∧
    (∀ m, ev = ApiEvent.exn m →
       (getGithubApi endpoint headers ev).1 = (false, none)) := by
  refine ⟨fun body hb => ?_, fun body hb => ?_, fun s body hb h200 h404 => ?_,
    fun m hm => ?_⟩ <;> subst_vars <;> simp [getGithubApi, *]

/-- C6, witness: concrete events of each class. -/
theorem c6_witness :
    (getGithubApi "branches/b".data (Headers.mk [] []) (ApiEvent.resp 200 (some 7))).1
      = (true, some 7) ∧
    (getGithubApi "branches/b".data (Headers.mk [] [])
      ((ApiEvent.resp 404 none : ApiEvent Nat))).1 = (false, none) ∧
    (getGithubApi "branches/b".data (Headers.mk [] [])
      ((ApiEvent.resp 500 none : ApiEvent Nat))).1 = (false, none) ∧
    (getGithubApi "branches/b".data (Headers.mk [] [])
      ((ApiEvent.exn "timeout".data : ApiEvent Nat))).1 = (false, none) :=
  ⟨(c6_api_client_classification Nat "branches/b".data (Headers.mk [] [])
      (ApiEvent.resp 200 (some 7))).1 (some 7) rfl,
    (c6_api_client_classification Nat "branches/b".data (Headers.mk [] [])
      (ApiEvent.resp 404 none)).2.1 none rfl,
    (c6_api_client_classification Nat "branches/b".data (Headers.mk [] [])
      (ApiEvent.resp 500 none)).2.2.1 500 none rfl (by decide) (by decide),
    (c6_api_client_classification Nat "branches/b".data (Headers.mk [] [])
      (ApiEvent.exn "timeout".data)).2.2.2 "timeout".data rfl⟩

/-!
## Issue / PR / comment data and the entity finders
(`_find_issue_by_keywords` lines 95–111, `_find_pr_by_keywords` lines
114–127, `_get_issue_comments` lines 130–137)
-/

/-- A GitHub label object (`{"name": ...}`). -/
structure GLabel where
  name : Str
deriving DecidableEq

/-- An issue as the script consumes it.  `hasPullRequest` models the
presence of the `"pull_request"` key. -/
structure Issue where
  number : Nat
  title : Str
  body : Str
  labels : List GLabel
  hasPullRequest : Bool
deriving DecidableEq

/-- A pull request as the script consumes it. -/
structure PullReq where
  number : Nat
  title : Str
  body : Str
  labels : List GLabel
deriving DecidableEq

/-- An issue comment. -/
structure CommentData where
  body : Str
deriving DecidableEq

/-- Keyword match on a title: every keyword, lower-cased, must occur in the
lower-cased title. -/
def titleMatches (kws : List Str) (title : Str) : Bool :=
  kws.all (fun kw => strContains (pyLower title) (pyLower kw))

/-- Inner loop of `_find_issue_by_keywords` over one page of issues: skip
items carrying `pull_request`, return the first keyword match. -/
def findIssueIn (kws : List Str) : List Issue → Option Issue
  | [] => none
  | i :: rest =>
    if i.hasPullRequest then findIssueIn kws rest
    else if titleMatches kws i.title then some i
    else findIssueIn kws rest

/-- `_find_issue_by_keywords`: fetch the open listing, scan it; only when
that yields nothing, fetch and scan the closed listing.  An unsuccessful or
empty (falsy) listing is skipped. -/
def findIssueByKeywords (kws : List Str) (headers : Headers)
    (openEv closedEv : ApiEvent (List Issue)) : Option Issue × List Entry :=
  let r1 := getGithubApi "issues?state=open&per_page=30".data headers openEv
  let fromOpen :=
    match r1.1 with
    | (true, some issues) => if issues.isEmpty then none else findIssueIn kws issues
    | _ => none
  match fromOpen with
  | some i => (some i, r1.2)
  | none =>
    let r2 := getGithubApi "issues?state=closed&per_page=30".data headers closedEv
    let fromClosed :=
      match r2.1 with
      | (true, some issues) => if issues.isEmpty then none else findIssueIn kws issues
      | _ => none
    (fromClosed, r1.2 ++ r2.2)

/-- Inner loop of `_find_pr_by_keywords` over one page of pull requests. -/
def findPrIn (kws : List Str) : List PullReq → Option PullReq
  | [] => none
  | p :: rest =>
    if titleMatches kws p.title then some p
    else findPrIn kws rest

/-- `_find_pr_by_keywords`: like the issue finder, over `pulls` listings,
without the `pull_request` exclusion. -/
def findPrByKeywords (kws : List Str) (headers : Headers)
    (openEv closedEv : ApiEvent (List PullReq)) : Option PullReq × List Entry :=
  let r1 := getGithubApi "pulls?state=open&per_page=30".data headers openEv
  let fromOpen :=
    match r1.1 with
    | (true, some prs) => if prs.isEmpty then none else findPrIn kws prs
    | _ => none
  match fromOpen with
  | some p => (some p, r1.2)
  | none =>
    let r2 := getGithubApi "pulls?state=closed&per_page=30".data headers closedEv
    let fromClosed :=
      match r2.1 with
      | (true, some prs) => if prs.isEmpty then none else findPrIn kws prs
      | _ => none
    (fromClosed, r1.2 ++ r2.2)

/-- `_get_issue_comments`: the comment list on success with a truthy
payload, `[]` otherwise. -/
def getIssueComments (issueNumber : Nat) (headers : Headers)
    (ev : ApiEvent (List CommentData)) : List CommentData × List Entry :=
  let r := getGithubApi ("issues/".data ++ natToStr issueNumber ++ "/comments".data)
    headers ev
  match r.1 with
  | (true, some comments) => (if comments.isEmpty then [] else comments, r.2)
  | _ => ([], r.2)

lemma findIssueIn_eq_find? (kws : List Str) (l : List Issue) :
    findIssueIn kws l =
      l.find? (fun i => !i.hasPullRequest && titleMatches kws i.title) := by
  induction l with
  | nil => rfl
  | cons i rest ih =>
    cases h1 : i.hasPullRequest <;> cases h2 : titleMatches kws i.title <;>
      simp [findIssueIn, h1, h2, ih, List.find?_cons]

lemma findPrIn_eq_find? (kws : List Str) (l : List PullReq) :
    findPrIn kws l = l.find? (fun p => titleMatches kws p.title) := by
  induction l with
  | nil => rfl
  | cons p rest ih =>
    cases h : titleMatches kws p.title <;> simp [findPrIn, h, ih, List.find?_cons]

lemma issueStage_eq (kws : List Str) (l : List Issue) :
    (if l.isEmpty then none else findIssueIn kws l) = findIssueIn kws l := by
  cases l <;> simp [findIssueIn]

lemma prStage_eq (kws : List Str) (l : List PullReq) :
    (if l.isEmpty then none else findPrIn kws l) = findPrIn kws l := by
  cases l <;> simp [findPrIn]

lemma findIssueByKeywords_200 (kws : List Str) (headers : Headers)
    (oi ci : List Issue) :
    (findIssueByKeywords kws headers (ApiEvent.resp 200 (some oi))
        (ApiEvent.resp 200 (some ci))).1 =
      (findIssueIn kws oi).or (findIssueIn kws ci) := by
  simp only [findIssueByKeywords, getGithubApi, issueStage_eq, if_pos]
  cases h : findIssueIn kws oi <;> simp [h, issueStage_eq]

lemma findPrByKeywords_200 (kws : List Str) (headers : Headers)
    (op cp : List PullReq) :
    (findPrByKeywords kws headers (ApiEvent.resp 200 (some op))
        (ApiEvent.resp 200 (some cp))).1 =
      (findPrIn kws op).or (findPrIn kws cp) := by
  simp only [findPrByKeywords, getGithubApi, prStage_eq, if_pos]
  cases h : findPrIn kws op <;> simp [h, prStage_eq]

/-- C4: with both listings delivered (open scanned before closed),
`_find_issue_by_keywords` returns the first item of open-then-closed whose
title contains every keyword case-insensitively and that does not carry a
`pull_request` field, and `_find_pr_by_keywords` the first keyword-matching
pull request; `List.find?` returning `none` is exactly the no-match case. -/
theorem c4_finders_first_match (kws : List Str) (headers : Headers)
    (oi ci : List Issue) (op cp : List PullReq) :
    (findIssueByKeywords kws headers (ApiEvent.resp 200 (some oi))
        (ApiEvent.resp 200 (some ci))).1 =
      (oi ++ ci).find? (fun i => !i.hasPullRequest && titleMatches kws i.title) ∧
    (findPrByKeywords kws headers (ApiEvent.resp 200 (some op))
        (ApiEvent.resp 200 (some cp))).1 =
      (op ++ cp).find? (fun p => titleMatches kws p.title) := by
  rw [findIssueByKeywords_200, findPrByKeywords_200, List.find?_append,
    List.find?_append, findIssueIn_eq_find?, findIssueIn_eq_find?,
    findPrIn_eq_find?, findPrIn_eq_find?]
  exact ⟨rfl, rfl⟩

/-!
## Comment scanner (pipeline step 7, lines 379–409)

The loop lower-cases each comment body once, substitutes the PR number into
the reference template, and demands in order: the substituted reference,
every required keyword, and every required content flag, all as
case-insensitive substrings.  The first comment passing all three sets the
flag and breaks.
-/

/-- Predicate group 1: the body contains the substituted PR reference. -/
def commentRefOk (prReferenceFlag : Str) (prNumber : Nat) (c : CommentData) : Bool :=
  strContains (pyLower c.body)
    (pyLower (pyReplace "{pr_number}".data (natToStr prNumber) prReferenceFlag))

/-- Predicate group 2: the body contains every required keyword. -/
def commentKwsOk (kws : List Str) (c : CommentData) : Bool :=
  kws.all (fun kw => strContains (pyLower c.body) (pyLower kw))

/-- Predicate group 3: the body contains every required content flag. -/
def commentFlagsOk (flags : List Str) (c : CommentData) : Bool :=
  flags.all (fun fl => strContains (pyLower c.body) (pyLower fl))

/-- All three predicate groups at once. -/
def commentCompliant (prReferenceFlag : Str) (prNumber : Nat)
    (kws flags : List Str) (c : CommentData) : Bool :=
  commentRefOk prReferenceFlag prNumber c && commentKwsOk kws c &&
    commentFlagsOk flags c

/-- The comment loop of step 7: `continue` on a failed group, set the flag
and `break` on the first comment passing all three. -/
def findValidComment (prReferenceFlag : Str) (prNumber : Nat)
    (kws flags : List Str) : List CommentData → Bool
  | [] => false
  | c :: rest =>
    if commentRefOk prReferenceFlag prNumber c = false then
      findValidComment prReferenceFlag prNumber kws flags rest
    else if commentKwsOk kws c = false then
      findValidComment prReferenceFlag prNumber kws flags rest
    else if commentFlagsOk flags c then true
    else findValidComment prReferenceFlag prNumber kws flags rest

lemma findValidComment_cons (prReferenceFlag : Str) (prNumber : Nat)
    (kws flags : List Str) (c : CommentData) (rest : List CommentData) :
    findValidComment prReferenceFlag prNumber kws flags (c :: rest) =
      if commentCompliant prReferenceFlag prNumber kws flags c then true
      else findValidComment prReferenceFlag prNumber kws flags rest := by
  cases h1 : commentRefOk prReferenceFlag prNumber c <;>
    cases h2 : commentKwsOk kws c <;>
    cases h3 : commentFlagsOk flags c <;>
    simp [findValidComment, commentCompliant, h1, h2, h3]

/-- C5: the comment scanner succeeds exactly when some comment satisfies
the substituted PR reference, all required keywords, and all required
content flags simultaneously (`find?` selecting the first such comment, and
`none` meaning the scanner returns false); a comment failing any one of the
three groups is not compliant and never selected, however early it appears;
scanning a list stops at the first compliant comment. -/
theorem c5_comment_scanner (prReferenceFlag : Str) (prNumber : Nat)
    (kws flags : List Str) (comments : List CommentData) :
    (findValidComment prReferenceFlag prNumber kws flags comments =
      (comments.find? (commentCompliant prReferenceFlag prNumber kws flags)).isSome) ∧
    (∀ c rest, findValidComment prReferenceFlag prNumber kws flags (c :: rest) =
       if commentCompliant prReferenceFlag prNumber kws flags c then true
       else findValidComment prReferenceFlag prNumber kws flags rest) ∧
    (∀ c, commentRefOk prReferenceFlag prNumber c = false ∨
          commentKwsOk kws c = false ∨ commentFlagsOk flags c = false →
       commentCompliant prReferenceFlag prNumber kws flags c = false) ∧
    (∀ c, comments.find? (commentCompliant prReferenceFlag prNumber kws flags)
        = some c →
       commentCompliant prReferenceFlag prNumber kws flags c = true) := by
  refine ⟨?_, fun c rest => findValidComment_cons _ _ _ _ c rest,
    fun c h => ?_, fun c h => List.find?_some h⟩
  · induction comments with
    | nil => rfl
    | cons c rest ih =>
      rw [findValidComment_cons]
      cases h : commentCompliant prReferenceFlag prNumber kws flags c <;>
        simp [h, ih]
  · rcases h with h | h | h <;> simp [commentCompliant, h]

/-- C5, witness: a comment passing the reference and keyword groups but
missing a content flag is not compliant, and a later fully-compliant
comment still makes the scanner succeed. -/
theorem c5_witness :
    commentCompliant "PR #{pr_number}".data 7 ["label".data] ["verified".data]
      (CommentData.mk "pr #7 label done".data) = false ∧
    findValidComment "PR #{pr_number}".data 7 ["label".data] ["verified".data]
      [CommentData.mk "pr #7 label done".data,
       CommentData.mk "pr #7 label verified".data] = true := by
  have h := c5_comment_scanner "PR #{pr_number}".data 7 ["label".data]
    ["verified".data]
    [CommentData.mk "pr #7 label done".data,
     CommentData.mk "pr #7 label verified".data]
  refine ⟨h.2.2.1 (CommentData.mk "pr #7 label done".data)
    (Or.inr (Or.inr (by decide))), ?_⟩
  rw [h.1]
  decide

/-!
## Configuration (the `CONFIG` mapping, lines 147–189)
-/

def targetRepo : Str := "team-project-management".data

def featureBranchName : Str := "feat/label-color-standard".data

def docFilePath : Str := "docs/label-color-standardization.md".data

def tableHeaderConfig : Str := "| Label Name | Color Hex | Category |".data

def minLabelCount : Nat := 22

def issueTitleKeywords : List Str :=
  ["Label".data, "standard".data, "documentation".data]

def issueBodyKeywords : List Str :=
  ["label".data, "color".data, "standard".data]

def issueRequiredSections : List Str :=
  ["## Background".data, "## Required Label List".data]

def issueInitialLabels : List Str :=
  ["documentation".data, "enhancement".data]

def prTitleKeywords : List Str :=
  ["Label".data, "standard".data, "documentation".data]

def prBodyKeywords : List Str :=
  ["label".data, "documentation".data, "standard".data]

def prRequiredSections : List Str :=
  ["## Summary".data, "## Changes".data]

def prMinLabelsCount : Nat := 3

def issueReferencePattern : Str := "Fixes #{issue_number}".data

def expectedLabels : List Str :=
  ["bug".data, "enhancement".data, "documentation".data, "feature".data,
   "bug-critical".data, "bug-major".data, "bug-minor".data, "task".data,
   "question".data, "help-wanted".data, "good-first-issue".data,
   "priority-high".data, "priority-medium".data, "priority-low".data,
   "status-in-progress".data, "status-review".data, "status-done".data,
   "status-blocked".data, "component-frontend".data, "component-backend".data,
   "component-db".data, "wontfix".data]

def commentKeywords : List Str :=
  ["label".data, "documentation".data, "completed".data]

def prReferenceFlag : Str := "PR #{pr_number}".data

def commentContentFlags : List Str :=
  ["labels".data, "verified".data, "applied".data]

/-- The first 10 entries of the expected-label list (step 9's "core"
labels). -/
def coreExpectedLabels : List Str := expectedLabels.take 10

/-- The step-9 failure condition: more core labels missing from the PR's
label names than half the core list (`len(missing) > len(core) // 2`). -/
def corePrLabelCheckFails (prLabelNames : List Str) : Bool :=
  (coreExpectedLabels.filter (fun lbl => !(prLabelNames.contains lbl))).length >
    coreExpectedLabels.length / 2

/-- Python `", ".join(xs)` (messages only). -/
def strJoin (sep : Str) : List Str → Str
  | [] => []
  | [x] => x
  | x :: y :: rest => x ++ sep ++ strJoin sep (y :: rest)

/-- The `"=" * 60` banner line. -/
def eqLine : Str := List.replicate 60 '='

/-- The request headers the pipeline builds (lines 207–210). -/
def mkHeaders (token : Str) : Headers :=
  ⟨"token ".data ++ token, "application/vnd.github.v3+json".data⟩

/-- The expected headers rebuilt by the step-1 self-check (lines 222–225);
textually the same construction as `mkHeaders`. -/
def expectedHeadersFor (token : Str) : Headers :=
  ⟨"token ".data ++ token, "application/vnd.github.v3+json".data⟩

/-!
## The verification pipeline (`verify_label_standardization`, lines 143–463)

One event per endpoint the run may touch; `github_token`/`github_org` are
the environment variables (`none` = unset; the empty string is falsy in the
`if not github_token` checks).  `load_dotenv(".env")` only populates the
process environment and is subsumed by these two fields.

In log messages, Python's `repr` of a list (used in a few f-strings) is
rendered as a comma-separated join of its elements; everything else is the
source text.  Each printed line is listed with its site id in the step
functions below.
-/

structure World where
  githubToken : Option Str
  githubOrg : Option Str
  branchEv : ApiEvent Unit
  contentsEv : ApiEvent FileJson
  issuesOpenEv : ApiEvent (List Issue)
  issuesClosedEv : ApiEvent (List Issue)
  pullsOpenEv : ApiEvent (List PullReq)
  pullsClosedEv : ApiEvent (List PullReq)
  commentsEv : ApiEvent (List CommentData)

/-- Step 9 (lines 437–450): the PR must carry at least half of the core
expected labels; on success the final summary (lines 455–462) is printed.
Sites: 50 step banner, 51 failure, 52 success, 53–60 summary. -/
def verifyStep9 (githubOrg : Str) (issueNumber : Nat) (pr : PullReq) :
    Option Nat × List Entry :=
  let e50 : Entry :=
    ⟨9, Chan.stdout, Kind.progress, 50, "\n9/9 验证PR标签与预期标签一致性...".data⟩
  let prLabelNames := pr.labels.map (fun l => l.name)
  let missingPrCoreLabels :=
    coreExpectedLabels.filter (fun lbl => !(prLabelNames.contains lbl))
  if corePrLabelCheckFails prLabelNames then
    (some 9,
      [e50,
       ⟨9, Chan.stderr, Kind.error, 51,
        "[错误] PR #".data ++ natToStr pr.number ++ " 缺失过多核心预期标签：".data ++
          strJoin ", ".data (missingPrCoreLabels.take 3) ++ "...".data⟩])
  else
    (none,
      [e50,
       ⟨9, Chan.stdout, Kind.progress, 52,
        "✓ PR #".data ++ natToStr pr.number ++ " 核心标签合规（缺失".data ++
          natToStr missingPrCoreLabels.length ++ "个核心标签，在允许范围内）".data⟩,
       ⟨9, Chan.stdout, Kind.progress, 53, "\n9/9 所有验证步骤完成".data⟩,
       ⟨9, Chan.stdout, Kind.progress, 54, "\n".data ++ eqLine⟩,
       ⟨9, Chan.stdout, Kind.progress, 55, "✅ 所有标签颜色标准化验证步骤通过！".data⟩,
       ⟨9, Chan.stdout, Kind.progress, 56,
        "验证对象：".data ++ githubOrg ++ "/".data ++ targetRepo⟩,
       ⟨9, Chan.stdout, Kind.progress, 57, "功能分支：".data ++ featureBranchName⟩,
       ⟨9, Chan.stdout, Kind.progress, 58, "验证Issue：#".data ++ natToStr issueNumber⟩,
       ⟨9, Chan.stdout, Kind.progress, 59, "验证PR：#".data ++ natToStr pr.number⟩,
       ⟨9, Chan.stdout, Kind.progress, 60, eqLine⟩])

/-- Step 8 (lines 414–432): every expected label must appear in the parsed
documentation; unexpected documented labels only warn.  Sites: 46 banner,
47 failure, 48 warning (stdout, non-fatal), 49 success. -/
def verifyStep8 (githubOrg : Str) (documentedLabels : List Str)
    (issueNumber : Nat) (pr : PullReq) : Option Nat × List Entry :=
  let e46 : Entry :=
    ⟨8, Chan.stdout, Kind.progress, 46, "\n8/9 验证标签文档与预期标签一致性...".data⟩
  let missingInDoc :=
    expectedLabels.filter (fun lbl => !(documentedLabels.contains lbl))
  if missingInDoc ≠ [] then
    (some 8,
      [e46,
       ⟨8, Chan.stderr, Kind.error, 47,
        "[错误] 预期标签未全部出现在文档中：".data ++
          strJoin ", ".data (missingInDoc.take 5) ++ "...（共缺失".data ++
          natToStr missingInDoc.length ++ "个）".data⟩])
  else
    let unexpectedInDoc :=
      documentedLabels.filter (fun lbl => !(expectedLabels.contains lbl))
    let warnEntries : List Entry :=
      if unexpectedInDoc ≠ [] then
        [⟨8, Chan.stdout, Kind.warning, 48,
          "[警告] 文档中存在未预期标签：".data ++
            strJoin ", ".data (unexpectedInDoc.take 3) ++ "...（不影响验证通过）".data⟩]
      else []
    let next := verifyStep9 githubOrg issueNumber pr
    (next.1,
      e46 :: warnEntries ++
        [⟨8, Chan.stdout, Kind.progress, 49, "✓ 所有预期标签（共22个）均在文档中存在".data⟩] ++
        next.2)

/-- Step 7 (lines 378–409): some comment on the issue must pass the
three-group compliance scan against the found PR.  Sites: 43 banner,
44 failure, 45 success; client log entries are tagged with step 7. -/
def verifyStep7 (w : World) (githubOrg : Str) (headers : Headers)
    (documentedLabels : List Str) (issueNumber : Nat) (pr : PullReq) :
    Option Nat × List Entry :=
  let e43 : Entry :=
    ⟨7, Chan.stdout, Kind.progress, 43,
     "\n7/9 验证Issue评论（关联PR #".data ++ natToStr pr.number ++ "）...".data⟩
  let cres := getIssueComments issueNumber headers w.commentsEv
  let clientLog := cres.2.map (tagStep 7)
  if findValidComment prReferenceFlag pr.number commentKeywords
      commentContentFlags cres.1 then
    let next := verifyStep8 githubOrg documentedLabels issueNumber pr
    (next.1,
      e43 :: clientLog ++
        [⟨7, Chan.stdout, Kind.progress, 45,
          "✓ Issue #".data ++ natToStr issueNumber ++ " 存在合规评论（关联PR #".data ++
            natToStr pr.number ++ "）".data⟩] ++ next.2)
  else
    (some 7,
      e43 :: clientLog ++
        [⟨7, Chan.stderr, Kind.error, 44,
          "[错误] Issue #".data ++ natToStr issueNumber ++ " 未找到关联PR #".data ++
            natToStr pr.number ++ "的合规评论".data⟩])

/-- Step 6 (lines 365–373): the issue must carry every expected label.
Sites: 40 banner, 41 failure, 42 success. -/
def verifyStep6 (w : World) (githubOrg : Str) (headers : Headers)
    (documentedLabels : List Str) (issueNumber : Nat)
    (issueLabelNames : List Str) (pr : PullReq) : Option Nat × List Entry :=
  let e40 : Entry :=
    ⟨6, Chan.stdout, Kind.progress, 40, "\n6/9 验证Issue标签完整性（共需 22 个标签）...".data⟩
  let missingIssueAllLabels :=
    expectedLabels.filter (fun lbl => !(issueLabelNames.contains lbl))
  if missingIssueAllLabels ≠ [] then
    (some 6,
      [e40,
       ⟨6, Chan.stderr, Kind.error, 41,
        "[错误] Issue缺失 ".data ++ natToStr missingIssueAllLabels.length ++
          " 个预期标签：".data ++ strJoin ", ".data (missingIssueAllLabels.take 5) ++
          "...".data⟩])
  else
    let next := verifyStep7 w githubOrg headers documentedLabels issueNumber pr
    (next.1,
      [e40,
       ⟨6, Chan.stdout, Kind.progress, 42,
        "✓ Issue #".data ++ natToStr issueNumber ++ " 包含所有预期标签".data⟩] ++ next.2)

/-- Step 5 (lines 317–360): find the PR by title keywords and check its
issue reference, required sections, required keywords, and label count.
Sites: 33 banner, 34–38 failures, 39 success; client log tagged step 5. -/
def verifyStep5 (w : World) (githubOrg : Str) (headers : Headers)
    (documentedLabels : List Str) (issueNumber : Nat)
    (issueLabelNames : List Str) : Option Nat × List Entry :=
  let e33 : Entry :=
    ⟨5, Chan.stdout, Kind.progress, 33,
     "\n5/9 验证PR（关键词：Label, standard, documentation）...".data⟩
  let fres := findPrByKeywords prTitleKeywords headers w.pullsOpenEv w.pullsClosedEv
  let clientLog := fres.2.map (tagStep 5)
  match fres.1 with
  | none =>
    (some 5,
      e33 :: clientLog ++
        [⟨5, Chan.stderr, Kind.error, 34, "[错误] 未找到符合关键词的PR".data⟩])
  | some pr =>
    let expectedIssueRef :=
      pyReplace "{issue_number}".data (natToStr issueNumber) issueReferencePattern
    if strContains (pyLower pr.body) (pyLower expectedIssueRef) = false then
      (some 5,
        e33 :: clientLog ++
          [⟨5, Chan.stderr, Kind.error, 35,
            "[错误] PR未按格式关联Issue：需包含「".data ++ expectedIssueRef ++ "」".data⟩])
    else
      let missingPrSections :=
        prRequiredSections.filter (fun sec => !(strContains pr.body sec))
      if missingPrSections ≠ [] then
        (some 5,
          e33 :: clientLog ++
            [⟨5, Chan.stderr, Kind.error, 36,
              "[错误] PR缺失必需章节：".data ++ strJoin ", ".data missingPrSections⟩])
      else
        let missingPrKeywords :=
          prBodyKeywords.filter
            (fun kw => !(strContains (pyLower pr.body) (pyLower kw)))
        if missingPrKeywords ≠ [] then
          (some 5,
            e33 :: clientLog ++
              [⟨5, Chan.stderr, Kind.error, 37,
                "[错误] PR缺失必需关键词：".data ++ strJoin ", ".data missingPrKeywords⟩])
        else if pr.labels.length < prMinLabelsCount then
          (some 5,
            e33 :: clientLog ++
              [⟨5, Chan.stderr, Kind.error, 38,
                "[错误] PR标签数量不足：实际 ".data ++ natToStr pr.labels.length ++
                  " 个，需至少 3 个".data⟩])
        else
          let next :=
            verifyStep6 w githubOrg headers documentedLabels issueNumber
              issueLabelNames pr
          (next.1,
            e33 :: clientLog ++
              [⟨5, Chan.stdout, Kind.progress, 39,
                "✓ PR #".data ++ natToStr pr.number ++ " 合规（标题：".data ++
                  pr.title ++ "）".data⟩] ++ next.2)

/-- Step 4 (lines 271–312): find the issue by title keywords and check its
required sections, required body keywords, and initial labels.
Sites: 27 banner, 28–31 failures, 32 success; client log tagged step 4. -/
def verifyStep4 (w : World) (githubOrg : Str) (headers : Headers)
    (documentedLabels : List Str) : Option Nat × List Entry :=
  let e27 : Entry :=
    ⟨4, Chan.stdout, Kind.progress, 27,
     "\n4/9 验证Issue（关键词：Label, standard, documentation）...".data⟩
  let fres := findIssueByKeywords issueTitleKeywords headers w.issuesOpenEv
    w.issuesClosedEv
  let clientLog := fres.2.map (tagStep 4)
  match fres.1 with
  | none =>
    (some 4,
      e27 :: clientLog ++
        [⟨4, Chan.stderr, Kind.error, 28, "[错误] 未找到符合关键词的Issue".data⟩])
  | some issue =>
    let issueLabelNames := issue.labels.map (fun l => l.name)
    let missingIssueSections :=
      issueRequiredSections.filter (fun sec => !(strContains issue.body sec))
    if missingIssueSections ≠ [] then
      (some 4,
        e27 :: clientLog ++
          [⟨4, Chan.stderr, Kind.error, 29,
            "[错误] Issue缺失必需章节：".data ++ strJoin ", ".data missingIssueSections⟩])
    else
      let missingIssueKeywords :=
        issueBodyKeywords.filter
          (fun kw => !(strContains (pyLower issue.body) (pyLower kw)))
      if missingIssueKeywords ≠ [] then
        (some 4,
          e27 :: clientLog ++
            [⟨4, Chan.stderr, Kind.error, 30,
              "[错误] Issue缺失必需关键词：".data ++
                strJoin ", ".data missingIssueKeywords⟩])
      else
        let missingIssueLabels :=
          issueInitialLabels.filter (fun lbl => !(issueLabelNames.contains lbl))
        if missingIssueLabels ≠ [] then
          (some 4,
            e27 :: clientLog ++
              [⟨4, Chan.stderr, Kind.error, 31,
                "[错误] Issue缺失初始必需标签：".data ++
                  strJoin ", ".data missingIssueLabels⟩])
        else
          let next :=
            verifyStep5 w githubOrg headers documentedLabels issue.number
              issueLabelNames
          (next.1,
            e27 :: clientLog ++
              [⟨4, Chan.stdout, Kind.progress, 32,
                "✓ Issue #".data ++ natToStr issue.number ++ " 合规（标题：".data ++
                  issue.title ++ "）".data⟩] ++ next.2)

/-- Step 3 (lines 246–266): fetch the documentation file (a missing or
falsy-empty text fails), parse the label table, and require at least the
configured minimum number of labels.  Sites: 23 banner, 24 not-found,
25 count failure, 26 success; client log tagged step 3. -/
def verifyStep3 (w : World) (githubOrg : Str) (headers : Headers) :
    Option Nat × List Entry :=
  let e23 : Entry :=
    ⟨3, Chan.stdout, Kind.progress, 23,
     "\n3/9 验证标签文档：".data ++ docFilePath ++ "...".data⟩
  let e24 : Entry :=
    ⟨3, Chan.stderr, Kind.error, 24,
     "[错误] 标签文档 ".data ++ docFilePath ++ " 未找到".data⟩
  let dres := getFileContent featureBranchName docFilePath headers w.contentsEv
  let clientLog := dres.2.map (tagStep 3)
  match dres.1 with
  | none => (some 3, e23 :: clientLog ++ [e24])
  | some content =>
    if content = [] then (some 3, e23 :: clientLog ++ [e24])
    else
      let documentedLabels := parseLabelTable content tableHeaderConfig
      if documentedLabels.length < minLabelCount then
        (some 3,
          e23 :: clientLog ++
            [⟨3, Chan.stderr, Kind.error, 25,
              "[错误] 文档标签数量不足：实际 ".data ++
                natToStr documentedLabels.length ++ " 个，需至少 22 个".data⟩])
      else
        let next := verifyStep4 w githubOrg headers documentedLabels
        (next.1,
          e23 :: clientLog ++
            [⟨3, Chan.stdout, Kind.progress, 26,
              "✓ 标签文档存在，共包含 ".data ++ natToStr documentedLabels.length ++
                " 个标签".data⟩] ++ next.2)

/-- Step 2 (lines 235–241): the feature branch must exist.  Sites: 20
banner, 21 failure, 22 success; client log tagged step 2. -/
def verifyStep2 (w : World) (githubOrg : Str) (headers : Headers) :
    Option Nat × List Entry :=
  let e20 : Entry :=
    ⟨2, Chan.stdout, Kind.progress, 20,
     "\n2/9 验证功能分支：".data ++ featureBranchName ++ "...".data⟩
  let bres := checkBranchExists featureBranchName headers w.branchEv
  let clientLog := bres.2.map (tagStep 2)
  if bres.1 then
    let next := verifyStep3 w githubOrg headers
    (next.1,
      e20 :: clientLog ++
        [⟨2, Chan.stdout, Kind.progress, 22,
          "✓ 功能分支 ".data ++ featureBranchName ++ " 存在".data⟩] ++ next.2)
  else
    (some 2,
      e20 :: clientLog ++
        [⟨2, Chan.stderr, Kind.error, 21,
          "[错误] 功能分支 ".data ++ featureBranchName ++ " 未找到".data⟩])

/-- Step 1 (lines 194–229): read the two environment variables (`None` or
the empty string is falsy and fails), build the request headers, print the
banner, and run the header self-check.  Sites: 10 missing token, 11 missing
org, 12–15 banner, 16 step banner, 17 header mismatch, 18–19 successes. -/
def verifyStep1 (w : World) : Option Nat × List Entry :=
  match w.githubToken with
  | none =>
    (some 1,
      [⟨1, Chan.stderr, Kind.error, 10,
        "[环境错误] 未配置 GITHUB_TOKEN（需在 .env 中设置）".data⟩])
  | some token =>
    if token = [] then
      (some 1,
        [⟨1, Chan.stderr, Kind.error, 10,
          "[环境错误] 未配置 GITHUB_TOKEN（需在 .env 中设置）".data⟩])
    else
      match w.githubOrg with
      | none =>
        (some 1,
          [⟨1, Chan.stderr, Kind.error, 11,
            "[环境错误] 未配置 GITHUB_ORG（需在 .env 中设置）".data⟩])
      | some org =>
        if org = [] then
          (some 1,
            [⟨1, Chan.stderr, Kind.error, 11,
              "[环境错误] 未配置 GITHUB_ORG（需在 .env 中设置）".data⟩])
        else
          let headers := mkHeaders token
          let expectedHeaders := expectedHeadersFor token
          let banner : List Entry :=
            [⟨1, Chan.stdout, Kind.progress, 12, eqLine⟩,
             ⟨1, Chan.stdout, Kind.progress, 13, "开始执行标签颜色标准化验证（GitHub场景）".data⟩,
             ⟨1, Chan.stdout, Kind.progress, 14,
              "目标仓库：".data ++ org ++ "/".data ++ targetRepo⟩,
             ⟨1, Chan.stdout, Kind.progress, 15, eqLine⟩,
             ⟨1, Chan.stdout, Kind.progress, 16, "1/9 验证环境配置...".data⟩]
          if headers ≠ expectedHeaders then
            (some 1,
              banner ++
                [⟨1, Chan.stderr, Kind.error, 17,
                  "[错误] API请求头格式不符合GitHub API v3规范".data⟩])
          else
            let next := verifyStep2 w org headers
            (next.1,
              banner ++
                [⟨1, Chan.stdout, Kind.progress, 18, "✓ 环境变量配置正确".data⟩,
                 ⟨1, Chan.stdout, Kind.progress, 19,
                  "✓ API请求头格式符合GitHub API v3规范".data⟩] ++ next.2)

/-- `verify_label_standardization()`: `none` models returning `True`,
`some k` returning `False` from a step-`k` guard. -/
def verifyLabelStandardization (w : World) : Option Nat × List Entry :=
  verifyStep1 w

/-- The boolean the function returns. -/
def verificationResult (w : World) : Bool :=
  (verifyLabelStandardization w).1.isNone

/-- `sys.exit(0 if verification_result else 1)`. -/
def mainExitCode (w : World) : Nat :=
  if verificationResult w then 0 else 1

/-- The `__main__` entry message for a keyboard interrupt (line 474,
plain `print`, hence stdout). -/
def interruptEntry : Entry :=
  ⟨0, Chan.stdout, Kind.error, 70, "\n\n❌ 用户中断执行".data⟩

/-- The `__main__` entry message for an unexpected exception (line 477,
plain `print`, hence stdout). -/
def crashedEntry (m : Str) : Entry :=
  ⟨0, Chan.stdout, Kind.error, 71, "\n\n❌ 执行过程中发生未预期错误：".data ++ m⟩

/-- How a whole process run ends: the pipeline returns, a keyboard
interrupt arrives (having produced some prefix of the pipeline's output),
or an unexpected exception escapes. -/
inductive TopEvent
  | completes (w : World)
  | interrupted (partialLog : List Entry)
  | crashed (msg : Str) (partialLog : List Entry)

/-- The `__main__` block (lines 469–478): exit code and everything
printed. -/
def runMain : TopEvent → Nat × List Entry
  | .completes w =>
    (mainExitCode w, (verifyLabelStandardization w).2)
  | .interrupted partialLog => (1, partialLog ++ [interruptEntry])
  | .crashed m partialLog => (1, partialLog ++ [crashedEntry m])

/-!
## Pipeline invariants

`stepOutOk k out` says of the output of the pipeline tail starting at step
`k`: a reported failure is a step in `[k, 9]` and the failing step printed
an error line; every printed line belongs to a step in `[k, failing step]`
(so nothing after the failing step produced output); error lines go to
stderr; the header-mismatch line (site 17) never appears; and a successful
tail printed at least one line for every step in `[k, 9]`.
-/

/-- Per-line invariant: error lines go to stderr, and the line is not the
step-1 header-mismatch report. -/
abbrev EntryInv (e : Entry) : Prop :=
  (e.kind = Kind.error → e.chan = Chan.stderr) ∧ e.site ≠ 17

lemma entryInv_of (e : Entry) (h1 : e.kind = Kind.error → e.chan = Chan.stderr)
    (h2 : e.site ≠ 17) : EntryInv e :=
  And.intro h1 h2

/-- Invariant of the output of the pipeline tail that starts at step `k`. -/
def stepOutOk (k : Nat) (out : Option Nat × List Entry) : Prop :=
  (∀ j, out.1 = some j →
     k ≤ j ∧ j ≤ 9 ∧ ∃ e ∈ out.2, e.step = j ∧ e.kind = Kind.error) ∧
  (∀ e ∈ out.2,
     k ≤ e.step ∧ (∀ j, out.1 = some j → e.step ≤ j) ∧ EntryInv e) ∧
  (out.1 = none → ∀ i, k ≤ i → i ≤ 9 → ∃ e ∈ out.2, e.step = i)

lemma stepOutOk_fail (k : Nat) (es : List Entry) (hk1 : 1 ≤ k) (hk9 : k ≤ 9)
    (hall : ∀ e ∈ es, e.step = k ∧ EntryInv e)
    (herr : ∃ e ∈ es, e.kind = Kind.error) :
    stepOutOk k (some k, es) := by
  refine ⟨fun j hj => ?_, fun e he => ?_, fun h => by simp at h⟩
  · obtain rfl : k = j := by simpa using hj
    obtain ⟨e, he, hk⟩ := herr
    exact ⟨le_refl k, hk9, e, he, (hall e he).1, hk⟩
  · obtain ⟨hstep, hinv⟩ := hall e he
    refine ⟨le_of_eq hstep.symm, fun j hj => ?_, hinv⟩
    obtain rfl : k = j := by simpa using hj
    exact le_of_eq hstep
  
lemma stepOutOk_cont (k : Nat) (es : List Entry) (out : Option Nat × List Entry)
    (hk9 : k < 9)
    (hall : ∀ e ∈ es, e.step = k ∧ EntryInv e)
    (hne : ∃ e, e ∈ es)
    (hnext : stepOutOk (k + 1) out) :
    stepOutOk k (out.1, es ++ out.2) := by
  obtain ⟨hA, hB, hC⟩ := hnext
  refine ⟨fun j hj => ?_, fun e he => ?_, fun h i hki hi9 => ?_⟩
  · obtain ⟨hkj, hj9, e, he, hst, hkd⟩ := hA j hj
    exact ⟨by omega, hj9, e, List.mem_append_right _ he, hst, hkd⟩
  · rcases List.mem_append.mp he with h1 | h2
    · obtain ⟨hstep, hinv⟩ := hall e h1
      refine ⟨le_of_eq hstep.symm, fun j hj => ?_, hinv⟩
      have := (hA j hj).1
      omega
    · obtain ⟨hk1e, hj, hinv⟩ := hB e h2
      exact ⟨by omega, hj, hinv⟩
  · rcases Nat.eq_or_lt_of_le hki with rfl | hlt
    · obtain ⟨e, he⟩ := hne
      exact ⟨e, List.mem_append_left _ he, (hall e he).1⟩
    · obtain ⟨e, he, hst⟩ := hC h i (by omega) hi9
      exact ⟨e, List.mem_append_right _ he, hst⟩

lemma stepOutOk_last (es : List Entry)
    (hall : ∀ e ∈ es, e.step = 9 ∧ EntryInv e)
    (hne : ∃ e, e ∈ es) :
    stepOutOk 9 (none, es) := by
  refine ⟨fun j hj => by simp at hj,
    fun e he => ⟨le_of_eq (hall e he).1.symm, fun j hj => by simp at hj,
      (hall e he).2⟩,
    fun _ i h9i hi9 => ?_⟩
  obtain rfl : i = 9 := by omega
  obtain ⟨e, he⟩ := hne
  exact ⟨e, he, (hall e he).1⟩

/-- Every line the API client prints is an error on stderr, from sites
1–3. -/
lemma getGithubApi_log_inv {α : Type} (endpoint : Str) (headers : Headers)
    (ev : ApiEvent α) :
    ∀ e ∈ (getGithubApi endpoint headers ev).2,
      e.kind = Kind.error ∧ e.chan = Chan.stderr ∧ e.site ≠ 17 := by
  intro e he
  cases ev with
  | resp status body =>
    simp only [getGithubApi] at he
    split_ifs at he <;> simp at he <;> subst he <;> exact ⟨rfl, rfl, by simp⟩
  | exn m =>
    simp [getGithubApi] at he
    subst he
    exact ⟨rfl, rfl, by simp⟩

lemma checkBranchExists_log_inv (branchName : Str) (headers : Headers)
    (ev : ApiEvent Unit) :
    ∀ e ∈ (checkBranchExists branchName headers ev).2,
      e.kind = Kind.error ∧ e.chan = Chan.stderr ∧ e.site ≠ 17 :=
  fun e he => getGithubApi_log_inv _ headers ev e he

lemma getFileContent_log_inv (branch filePath : Str) (headers : Headers)
    (ev : ApiEvent FileJson) :
    ∀ e ∈ (getFileContent branch filePath headers ev).2,
      e.kind = Kind.error ∧ e.chan = Chan.stderr ∧ e.site ≠ 17 := by
  intro e he
  unfold getFileContent at he
  set r := getGithubApi ("contents/".data ++ filePath ++ "?ref=".data ++ branch)
    headers ev with hr
  rcases hrr : r.1 with ⟨b, body⟩
  rcases b <;> rcases body with _ | fj <;> simp [hrr] at he
  · exact getGithubApi_log_inv _ headers ev e he
  · exact getGithubApi_log_inv _ headers ev e he
  · exact getGithubApi_log_inv _ headers ev e he
  · cases fj with
    | noContent => simp at he; exact getGithubApi_log_inv _ headers ev e he
    | badDecode m =>
      simp at he
      rcases he with he | rfl
      · exact getGithubApi_log_inv _ headers ev e he
      · exact ⟨rfl, rfl, by simp⟩
    | text s => simp at he; exact getGithubApi_log_inv _ headers ev e he

lemma findIssueByKeywords_log_inv (kws : List Str) (headers : Headers)
    (openEv closedEv : ApiEvent (List Issue)) :
    ∀ e ∈ (findIssueByKeywords kws headers openEv closedEv).2,
      e.kind = Kind.error ∧ e.chan = Chan.stderr ∧ e.site ≠ 17 := by
  intro e he
  simp only [findIssueByKeywords] at he
  split at he
  · exact getGithubApi_log_inv _ headers openEv e he
  · rcases List.mem_append.mp he with h | h
    · exact getGithubApi_log_inv _ headers openEv e h
    · exact getGithubApi_log_inv _ headers closedEv e h

lemma findPrByKeywords_log_inv (kws : List Str) (headers : Headers)
    (openEv closedEv : ApiEvent (List PullReq)) :
    ∀ e ∈ (findPrByKeywords kws headers openEv closedEv).2,
      e.kind = Kind.error ∧ e.chan = Chan.stderr ∧ e.site ≠ 17 := by
  intro e he
  simp only [findPrByKeywords] at he
  split at he
  · exact getGithubApi_log_inv _ headers openEv e he
  · rcases List.mem_append.mp he with h | h
    · exact getGithubApi_log_inv _ headers openEv e h
    · exact getGithubApi_log_inv _ headers closedEv e h

lemma getIssueComments_log_inv (issueNumber : Nat) (headers : Headers)
    (ev : ApiEvent (List CommentData)) :
    ∀ e ∈ (getIssueComments issueNumber headers ev).2,
      e.kind = Kind.error ∧ e.chan = Chan.stderr ∧ e.site ≠ 17 := by
  intro e he
  simp only [getIssueComments] at he
  split at he <;> exact getGithubApi_log_inv _ headers ev e he

/-- Client log entries retagged with the calling step satisfy the step
invariant. -/
lemma tagged_log_inv (k : Nat) (lg : List Entry)
    (hinv : ∀ e ∈ lg, e.kind = Kind.error ∧ e.chan = Chan.stderr ∧ e.site ≠ 17) :
    ∀ e ∈ lg.map (tagStep k), e.step = k ∧ EntryInv e := by
  intro e he
  obtain ⟨c, hc, rfl⟩ := List.mem_map.mp he
  obtain ⟨h1, h2, h3⟩ := hinv c hc
  exact ⟨rfl, fun _ => h2, h3⟩

lemma verifyStep9_ok (githubOrg : Str) (issueNumber : Nat) (pr : PullReq) :
    stepOutOk 9 (verifyStep9 githubOrg issueNumber pr) := by
  simp only [verifyStep9]
  split
  · refine stepOutOk_fail 9 _ (by omega) (by omega) ?_ ?_
    · intro e he
      simp only [List.mem_cons, List.not_mem_nil, or_false] at he
      rcases he with rfl | rfl
      · exact ⟨rfl, entryInv_of _ (fun h => nomatch h) (by simp)⟩
      · exact ⟨rfl, entryInv_of _ (fun _ => rfl) (by simp)⟩
    · exact ⟨_, List.mem_cons_of_mem _ (List.mem_cons_self _ _), rfl⟩
  · refine stepOutOk_last _ ?_ ⟨_, List.mem_cons_self _ _⟩
    intro e he
    simp only [List.mem_cons, List.not_mem_nil, or_false] at he
    rcases he with rfl | rfl | rfl | rfl | rfl | rfl | rfl | rfl | rfl | rfl <;>
      exact ⟨rfl, entryInv_of _ (fun h => nomatch h) (by simp)⟩

lemma verifyStep8_ok (githubOrg : Str) (documentedLabels : List Str)
    (issueNumber : Nat) (pr : PullReq) :
    stepOutOk 8 (verifyStep8 githubOrg documentedLabels issueNumber pr) := by
  simp only [verifyStep8]
  split
  · refine stepOutOk_fail 8 _ (by omega) (by omega) ?_ ?_
    · intro e he
      simp only [List.mem_cons, List.not_mem_nil, or_false] at he
      rcases he with rfl | rfl
      · exact ⟨rfl, entryInv_of _ (fun h => nomatch h) (by simp)⟩
      · exact ⟨rfl, entryInv_of _ (fun _ => rfl) (by simp)⟩
    · exact ⟨_, List.mem_cons_of_mem _ (List.mem_cons_self _ _), rfl⟩
  · split
    · refine stepOutOk_cont 8 _ _ (by omega) ?_
        ⟨_, List.mem_append_left _ (List.mem_cons_self _ _)⟩
        (verifyStep9_ok githubOrg issueNumber pr)
      intro e he
      rcases List.mem_append.mp he with h | h
      · simp only [List.mem_cons, List.not_mem_nil, or_false] at h
        rcases h with rfl | rfl
        · exact ⟨rfl, entryInv_of _ (fun h => nomatch h) (by simp)⟩
        · exact ⟨rfl, entryInv_of _ (fun h => nomatch h) (by simp)⟩
      · simp only [List.mem_singleton] at h
        subst h
        exact ⟨rfl, entryInv_of _ (fun h => nomatch h) (by simp)⟩
    · refine stepOutOk_cont 8 _ _ (by omega) ?_
        ⟨_, List.mem_append_left _ (List.mem_cons_self _ _)⟩
        (verifyStep9_ok githubOrg issueNumber pr)
      intro e he
      rcases List.mem_append.mp he with h | h
      · simp only [List.mem_cons, List.not_mem_nil, or_false] at h
        rcases h with rfl
        exact ⟨rfl, entryInv_of _ (fun h => nomatch h) (by simp)⟩
      · simp only [List.mem_singleton] at h
        subst h
        exact ⟨rfl, entryInv_of _ (fun h => nomatch h) (by simp)⟩

lemma verifyStep7_ok (w : World) (githubOrg : Str) (headers : Headers)
    (documentedLabels : List Str) (issueNumber : Nat) (pr : PullReq) :
    stepOutOk 7 (verifyStep7 w githubOrg headers documentedLabels issueNumber pr) := by
  simp only [verifyStep7]
  split
  · refine stepOutOk_cont 7 _ _ (by omega) ?_
      ⟨_, List.mem_append_left _ (List.mem_cons_self _ _)⟩
      (verifyStep8_ok githubOrg documentedLabels issueNumber pr)
    intro e he
    rcases List.mem_append.mp he with h | h
    · rcases List.mem_cons.mp h with rfl | h2
      · exact ⟨rfl, entryInv_of _ (fun h => nomatch h) (by simp)⟩
      · exact tagged_log_inv 7 _
          (getIssueComments_log_inv issueNumber headers w.commentsEv) e h2
    · simp only [List.mem_singleton] at h
      subst h
      exact ⟨rfl, entryInv_of _ (fun h => nomatch h) (by simp)⟩
  · refine stepOutOk_fail 7 _ (by omega) (by omega) ?_
      ⟨_, List.mem_append_right _ (List.mem_cons_self _ _), rfl⟩
    intro e he
    rcases List.mem_append.mp he with h | h
    · rcases List.mem_cons.mp h with rfl | h2
      · exact ⟨rfl, entryInv_of _ (fun h => nomatch h) (by simp)⟩
      · exact tagged_log_inv 7 _
          (getIssueComments_log_inv issueNumber headers w.commentsEv) e h2
    · simp only [List.mem_singleton] at h
      subst h
      exact ⟨rfl, entryInv_of _ (fun _ => rfl) (by simp)⟩

lemma verifyStep6_ok (w : World) (githubOrg : Str) (headers : Headers)
    (documentedLabels : List Str) (issueNumber : Nat)
    (issueLabelNames : List Str) (pr : PullReq) :
    stepOutOk 6 (verifyStep6 w githubOrg headers documentedLabels issueNumber
      issueLabelNames pr) := by
  simp only [verifyStep6]
  split
  · refine stepOutOk_fail 6 _ (by omega) (by omega) ?_
      ⟨_, List.mem_cons_of_mem _ (List.mem_cons_self _ _), rfl⟩
    intro e he
    simp only [List.mem_cons, List.not_mem_nil, or_false] at he
    rcases he with rfl | rfl
    · exact ⟨rfl, entryInv_of _ (fun h => nomatch h) (by simp)⟩
    · exact ⟨rfl, entryInv_of _ (fun _ => rfl) (by simp)⟩
  · refine stepOutOk_cont 6 _ _ (by omega) ?_
      ⟨_, List.mem_cons_self _ _⟩
      (verifyStep7_ok w githubOrg headers documentedLabels issueNumber pr)
    intro e he
    simp only [List.mem_cons, List.not_mem_nil, or_false] at he
    rcases he with rfl | rfl <;>
      exact ⟨rfl, entryInv_of _ (fun h => nomatch h) (by simp)⟩

lemma verifyStep5_ok (w : World) (githubOrg : Str) (headers : Headers)
    (documentedLabels : List Str) (issueNumber : Nat)
    (issueLabelNames : List Str) :
    stepOutOk 5 (verifyStep5 w githubOrg headers documentedLabels issueNumber
      issueLabelNames) := by
  simp only [verifyStep5]
  have hclient := tagged_log_inv 5 _
    (findPrByKeywords_log_inv prTitleKeywords headers w.pullsOpenEv w.pullsClosedEv)
  split
  · refine stepOutOk_fail 5 _ (by omega) (by omega) ?_
      ⟨_, List.mem_append_right _ (List.mem_cons_self _ _), rfl⟩
    intro e he
    rcases List.mem_append.mp he with h | h
    · rcases List.mem_cons.mp h with rfl | h2
      · exact ⟨rfl, entryInv_of _ (fun h => nomatch h) (by simp)⟩
      · exact hclient e h2
    · simp only [List.mem_singleton] at h
      subst h
      exact ⟨rfl, entryInv_of _ (fun _ => rfl) (by simp)⟩
  · split
    · refine stepOutOk_fail 5 _ (by omega) (by omega) ?_
        ⟨_, List.mem_append_right _ (List.mem_cons_self _ _), rfl⟩
      intro e he
      rcases List.mem_append.mp he with h | h
      · rcases List.mem_cons.mp h with rfl | h2
        · exact ⟨rfl, entryInv_of _ (fun h => nomatch h) (by simp)⟩
        · exact hclient e h2
      · simp only [List.mem_singleton] at h
        subst h
        exact ⟨rfl, entryInv_of _ (fun _ => rfl) (by simp)⟩
    · split
      · refine stepOutOk_fail 5 _ (by omega) (by omega) ?_
          ⟨_, List.mem_append_right _ (List.mem_cons_self _ _), rfl⟩
        intro e he
        rcases List.mem_append.mp he with h | h
        · rcases List.mem_cons.mp h with rfl | h2
          · exact ⟨rfl, entryInv_of _ (fun h => nomatch h) (by simp)⟩
          · exact hclient e h2
        · simp only [List.mem_singleton] at h
          subst h
          exact ⟨rfl, entryInv_of _ (fun _ => rfl) (by simp)⟩
      · split
        · refine stepOutOk_fail 5 _ (by omega) (by omega) ?_
            ⟨_, List.mem_append_right _ (List.mem_cons_self _ _), rfl⟩
          intro e he
          rcases List.mem_append.mp he with h | h
          · rcases List.mem_cons.mp h with rfl | h2
            · exact ⟨rfl, entryInv_of _ (fun h => nomatch h) (by simp)⟩
            · exact hclient e h2
          · simp only [List.mem_singleton] at h
            subst h
            exact ⟨rfl, entryInv_of _ (fun _ => rfl) (by simp)⟩
        · split
          · refine stepOutOk_fail 5 _ (by omega) (by omega) ?_
              ⟨_, List.mem_append_right _ (List.mem_cons_self _ _), rfl⟩
            intro e he
            rcases List.mem_append.mp he with h | h
            · rcases List.mem_cons.mp h with rfl | h2
              · exact ⟨rfl, entryInv_of _ (fun h => nomatch h) (by simp)⟩
              · exact hclient e h2
            · simp only [List.mem_singleton] at h
              subst h
              exact ⟨rfl, entryInv_of _ (fun _ => rfl) (by simp)⟩
          · refine stepOutOk_cont 5 _ _ (by omega) ?_
              ⟨_, List.mem_append_left _ (List.mem_cons_self _ _)⟩
              (verifyStep6_ok w githubOrg headers documentedLabels issueNumber
                issueLabelNames _)
            intro e he
            rcases List.mem_append.mp he with h | h
            · rcases List.mem_cons.mp h with rfl | h2
              · exact ⟨rfl, entryInv_of _ (fun h => nomatch h) (by simp)⟩
              · exact hclient e h2
            · simp only [List.mem_singleton] at h
              subst h
              exact ⟨rfl, entryInv_of _ (fun h => nomatch h) (by simp)⟩

lemma verifyStep4_ok (w : World) (githubOrg : Str) (headers : Headers)
    (documentedLabels : List Str) :
    stepOutOk 4 (verifyStep4 w githubOrg headers documentedLabels) := by
  simp only [verifyStep4]
  have hclient := tagged_log_inv 4 _
    (findIssueByKeywords_log_inv issueTitleKeywords headers w.issuesOpenEv
      w.issuesClosedEv)
  split
  · refine stepOutOk_fail 4 _ (by omega) (by omega) ?_
      ⟨_, List.mem_append_right _ (List.mem_cons_self _ _), rfl⟩
    intro e he
    rcases List.mem_append.mp he with h | h
    · rcases List.mem_cons.mp h with rfl | h2
      · exact ⟨rfl, entryInv_of _ (fun h => nomatch h) (by simp)⟩
      · exact hclient e h2
    · simp only [List.mem_singleton] at h
      subst h
      exact ⟨rfl, entryInv_of _ (fun _ => rfl) (by simp)⟩
  · split
    · refine stepOutOk_fail 4 _ (by omega) (by omega) ?_
        ⟨_, List.mem_append_right _ (List.mem_cons_self _ _), rfl⟩
      intro e he
      rcases List.mem_append.mp he with h | h
      · rcases List.mem_cons.mp h with rfl | h2
        · exact ⟨rfl, entryInv_of _ (fun h => nomatch h) (by simp)⟩
        · exact hclient e h2
      · simp only [List.mem_singleton] at h
        subst h
        exact ⟨rfl, entryInv_of _ (fun _ => rfl) (by simp)⟩
    · split
      · refine stepOutOk_fail 4 _ (by omega) (by omega) ?_
          ⟨_, List.mem_append_right _ (List.mem_cons_self _ _), rfl⟩
        intro e he
        rcases List.mem_append.mp he with h | h
        · rcases List.mem_cons.mp h with rfl | h2
          · exact ⟨rfl, entryInv_of _ (fun h => nomatch h) (by simp)⟩
          · exact hclient e h2
        · simp only [List.mem_singleton] at h
          subst h
          exact ⟨rfl, entryInv_of _ (fun _ => rfl) (by simp)⟩
      · split
        · refine stepOutOk_fail 4 _ (by omega) (by omega) ?_
            ⟨_, List.mem_append_right _ (List.mem_cons_self _ _), rfl⟩
          intro e he
          rcases List.mem_append.mp he with h | h
          · rcases List.mem_cons.mp h with rfl | h2
            · exact ⟨rfl, entryInv_of _ (fun h => nomatch h) (by simp)⟩
            · exact hclient e h2
          · simp only [List.mem_singleton] at h
            subst h
            exact ⟨rfl, entryInv_of _ (fun _ => rfl) (by simp)⟩
        · refine stepOutOk_cont 4 _ _ (by omega) ?_
            ⟨_, List.mem_append_left _ (List.mem_cons_self _ _)⟩
            (verifyStep5_ok w githubOrg headers documentedLabels _ _)
          intro e he
          rcases List.mem_append.mp he with h | h
          · rcases List.mem_cons.mp h with rfl | h2
            · exact ⟨rfl, entryInv_of _ (fun h => nomatch h) (by simp)⟩
            · exact hclient e h2
          · simp only [List.mem_singleton] at h
            subst h
            exact ⟨rfl, entryInv_of _ (fun h => nomatch h) (by simp)⟩

lemma verifyStep3_ok (w : World) (githubOrg : Str) (headers : Headers) :
    stepOutOk 3 (verifyStep3 w githubOrg headers) := by
  simp only [verifyStep3]
  have hclient := tagged_log_inv 3 _
    (getFileContent_log_inv featureBranchName docFilePath headers w.contentsEv)
  split
  · refine stepOutOk_fail 3 _ (by omega) (by omega) ?_
      ⟨_, List.mem_append_right _ (List.mem_cons_self _ _), rfl⟩
    intro e he
    rcases List.mem_append.mp he with h | h
    · rcases List.mem_cons.mp h with rfl | h2
      · exact ⟨rfl, entryInv_of _ (fun h => nomatch h) (by simp)⟩
      · exact hclient e h2
    · simp only [List.mem_singleton] at h
      subst h
      exact ⟨rfl, entryInv_of _ (fun _ => rfl) (by simp)⟩
  · split
    · refine stepOutOk_fail 3 _ (by omega) (by omega) ?_
        ⟨_, List.mem_append_right _ (List.mem_cons_self _ _), rfl⟩
      intro e he
      rcases List.mem_append.mp he with h | h
      · rcases List.mem_cons.mp h with rfl | h2
        · exact ⟨rfl, entryInv_of _ (fun h => nomatch h) (by simp)⟩
        · exact hclient e h2
      · simp only [List.mem_singleton] at h
        subst h
        exact ⟨rfl, entryInv_of _ (fun _ => rfl) (by simp)⟩
    · split
      · refine stepOutOk_fail 3 _ (by omega) (by omega) ?_
          ⟨_, List.mem_append_right _ (List.mem_cons_self _ _), rfl⟩
        intro e he
        rcases List.mem_append.mp he with h | h
        · rcases List.mem_cons.mp h with rfl | h2
          · exact ⟨rfl, entryInv_of _ (fun h => nomatch h) (by simp)⟩
          · exact hclient e h2
        · simp only [List.mem_singleton] at h
          subst h
          exact ⟨rfl, entryInv_of _ (fun _ => rfl) (by simp)⟩
      · refine stepOutOk_cont 3 _ _ (by omega) ?_
          ⟨_, List.mem_append_left _ (List.mem_cons_self _ _)⟩
          (verifyStep4_ok w githubOrg headers _)
        intro e he
        rcases List.mem_append.mp he with h | h
        · rcases List.mem_cons.mp h with rfl | h2
          · exact ⟨rfl, entryInv_of _ (fun h => nomatch h) (by simp)⟩
          · exact hclient e h2
        · simp only [List.mem_singleton] at h
          subst h
          exact ⟨rfl, entryInv_of _ (fun h => nomatch h) (by simp)⟩

lemma verifyStep2_ok (w : World) (githubOrg : Str) (headers : Headers) :
    stepOutOk 2 (verifyStep2 w githubOrg headers) := by
  simp only [verifyStep2]
  have hclient := tagged_log_inv 2 _
    (checkBranchExists_log_inv featureBranchName headers w.branchEv)
  split
  · refine stepOutOk_cont 2 _ _ (by omega) ?_
      ⟨_, List.mem_append_left _ (List.mem_cons_self _ _)⟩
      (verifyStep3_ok w githubOrg headers)
    intro e he
    rcases List.mem_append.mp he with h | h
    · rcases List.mem_cons.mp h with rfl | h2
      · exact ⟨rfl, entryInv_of _ (fun h => nomatch h) (by simp)⟩
      · exact hclient e h2
    · simp only [List.mem_singleton] at h
      subst h
      exact ⟨rfl, entryInv_of _ (fun h => nomatch h) (by simp)⟩
  · refine stepOutOk_fail 2 _ (by omega) (by omega) ?_
      ⟨_, List.mem_append_right _ (List.mem_cons_self _ _), rfl⟩
    intro e he
    rcases List.mem_append.mp he with h | h
    · rcases List.mem_cons.mp h with rfl | h2
      · exact ⟨rfl, entryInv_of _ (fun h => nomatch h) (by simp)⟩
      · exact hclient e h2
    · simp only [List.mem_singleton] at h
      subst h
      exact ⟨rfl, entryInv_of _ (fun _ => rfl) (by simp)⟩

lemma verifyStep1_ok (w : World) : stepOutOk 1 (verifyStep1 w) := by
  simp only [verifyStep1]
  split
  · refine stepOutOk_fail 1 _ (by omega) (by omega) ?_
      ⟨_, List.mem_cons_self _ _, rfl⟩
    intro e he
    simp only [List.mem_singleton] at he
    subst he
    exact ⟨rfl, entryInv_of _ (fun _ => rfl) (by simp)⟩
  · split
    · refine stepOutOk_fail 1 _ (by omega) (by omega) ?_
        ⟨_, List.mem_cons_self _ _, rfl⟩
      intro e he
      simp only [List.mem_singleton] at he
      subst he
      exact ⟨rfl, entryInv_of _ (fun _ => rfl) (by simp)⟩
    · split
      · refine stepOutOk_fail 1 _ (by omega) (by omega) ?_
          ⟨_, List.mem_cons_self _ _, rfl⟩
        intro e he
        simp only [List.mem_singleton] at he
        subst he
        exact ⟨rfl, entryInv_of _ (fun _ => rfl) (by simp)⟩
      · split
        · refine stepOutOk_fail 1 _ (by omega) (by omega) ?_
            ⟨_, List.mem_cons_self _ _, rfl⟩
          intro e he
          simp only [List.mem_singleton] at he
          subst he
          exact ⟨rfl, entryInv_of _ (fun _ => rfl) (by simp)⟩
        · split
          · next hne =>
            exact absurd rfl hne
          · refine stepOutOk_cont 1 _ _ (by omega) ?_
              ⟨_, List.mem_append_left _ (List.mem_cons_self _ _)⟩
              (verifyStep2_ok w _ _)
            intro e he
            rcases List.mem_append.mp he with h | h
            · simp only [List.mem_cons, List.not_mem_nil, or_false] at h
              rcases h with rfl | rfl | rfl | rfl | rfl <;>
                exact ⟨rfl, entryInv_of _ (fun h => nomatch h) (by simp)⟩
            · simp only [List.mem_cons, List.not_mem_nil, or_false] at h
              rcases h with rfl | rfl <;>
                exact ⟨rfl, entryInv_of _ (fun h => nomatch h) (by simp)⟩

/-!
## Claims about the pipeline (C3, C7, C8, C9)
-/

/-- C3: if the pipeline fails at step `k` (1 ≤ k ≤ 9), the failing step
printed an error line, no line of any step after `k` was printed, the
pipeline returns false and the process exit code is 1; if it fails at no
step, the exit code is 0 and every one of the nine steps printed at least
one line. -/
theorem c3_pipeline_fail_fast (w : World) :
    (∀ k, (verifyLabelStandardization w).1 = some k →
       1 ≤ k ∧ k ≤ 9 ∧
       verificationResult w = false ∧ mainExitCode w = 1 ∧
       (∀ e ∈ (verifyLabelStandardization w).2, e.step ≤ k) ∧
       (∃ e ∈ (verifyLabelStandardization w).2,
          e.step = k ∧ e.kind = Kind.error)) ∧
    ((verifyLabelStandardization w).1 = none →
       mainExitCode w = 0 ∧
       ∀ i, 1 ≤ i → i ≤ 9 →
         ∃ e ∈ (verifyLabelStandardization w).2, e.step = i) := by
  obtain ⟨hA, hB, hC⟩ := verifyStep1_ok w
  constructor
  · intro k hk
    obtain ⟨h1k, hk9, e, he, hst, hkd⟩ := hA k hk
    have hk2 : (verifyStep1 w).1 = some k := hk
    refine ⟨h1k, hk9, ?_, ?_, fun e2 he2 => (hB e2 he2).2.1 k hk,
      e, he, hst, hkd⟩
    · simp [verificationResult, verifyLabelStandardization, hk2]
    · simp [mainExitCode, verificationResult, verifyLabelStandardization, hk2]
  · intro hn
    have hn2 : (verifyStep1 w).1 = none := hn
    refine ⟨?_, hC hn2⟩
    simp [mainExitCode, verificationResult, verifyLabelStandardization, hn2]

/-- A run with both environment variables unset (every API event is an
exception, but none is ever raised). -/
def tokenlessWorld : World :=
  ⟨none, none, ApiEvent.exn [], ApiEvent.exn [], ApiEvent.exn [],
   ApiEvent.exn [], ApiEvent.exn [], ApiEvent.exn [], ApiEvent.exn []⟩

/-- C3, witness: the run with no token fails at step 1, exits 1, and prints
nothing beyond step 1. -/
theorem c3_witness :
    mainExitCode tokenlessWorld = 1 ∧
    ∀ e ∈ (verifyLabelStandardization tokenlessWorld).2, e.step ≤ 1 := by
  have h := (c3_pipeline_fail_fast tokenlessWorld).1 1 rfl
  exact ⟨h.2.2.2.1, h.2.2.2.2.1⟩

/-- C7: step 9's check fails exactly when at most 4 of the 10 core
expected labels occur among the PR's label names, and passes exactly when
at least 5 do; the step-9 guard reports failure exactly when the check
fails. -/
theorem c7_core_label_check (prLabelNames : List Str) :
    (corePrLabelCheckFails prLabelNames = true ↔
       (coreExpectedLabels.filter (fun lbl => prLabelNames.contains lbl)).length ≤ 4) ∧
    (corePrLabelCheckFails prLabelNames = false ↔
       5 ≤ (coreExpectedLabels.filter (fun lbl => prLabelNames.contains lbl)).length) ∧
    (∀ githubOrg issueNumber pr,
       (verifyStep9 githubOrg issueNumber pr).1 = some 9 ↔
         corePrLabelCheckFails (pr.labels.map (fun l => l.name)) = true) := by
  have hpart :=
    List.length_eq_length_filter_add (l := coreExpectedLabels)
      (fun lbl => prLabelNames.contains lbl)
  have hlen : coreExpectedLabels.length = 10 := by decide
  rw [hlen] at hpart
  refine ⟨?_, ?_, fun githubOrg issueNumber pr => ?_⟩
  · simp only [corePrLabelCheckFails, gt_iff_lt, decide_eq_true_eq, hlen]
    omega
  · simp only [corePrLabelCheckFails, gt_iff_lt, decide_eq_false_iff_not,
      not_lt, hlen]
    omega
  · simp only [verifyStep9]
    split
    · next h => simp [h]
    · next h => simp [h]

/-- C8: whenever the two environment variables pass the presence check, the
constructed request headers equal the expected pair rebuilt by the step-1
self-check, and accordingly the header-mismatch error (print site 17) never
occurs in any run's output: that branch is unreachable. -/
theorem c8_header_self_check_unreachable :
    (∀ token org : Str, token ≠ [] → org ≠ [] →
       mkHeaders token = expectedHeadersFor token) ∧
    (∀ w : World, ∀ e ∈ (verifyLabelStandardization w).2, e.site ≠ 17) := by
  refine ⟨fun token org h1 h2 => rfl, fun w e he => ?_⟩
  exact ((verifyStep1_ok w).2.1 e he).2.2.2

/-- C8, witness: a concrete token passing the presence check yields equal
header pairs. -/
theorem c8_witness : mkHeaders "tok".data = expectedHeadersFor "tok".data :=
  c8_header_self_check_unreachable.1 "tok".data "org".data (by decide)
    (by decide)

/-- C9, counterexample: the keyboard-interrupt run exits with code 1 and
its only failure message is printed to standard output, not the error
stream — refuting the claim that every exit-1 run reports its failure on
the error stream. -/
theorem c9_counterexample :
    runMain (TopEvent.interrupted []) = (1, [interruptEntry]) ∧
    interruptEntry.kind = Kind.error ∧
    interruptEntry.chan = Chan.stdout ∧
    Chan.stdout ≠ Chan.stderr :=
  ⟨rfl, rfl, rfl, by decide⟩

/-- C9, amended: every failed check inside the pipeline is reported on the
error stream, and pipeline standard-output lines are never error reports;
but the top-level keyboard-interrupt and unexpected-exception messages are
printed to standard output (plain `print`), both with exit code 1; a
pipeline run exits 1 exactly when the pipeline returned false. -/
theorem c9_amended :
    (∀ w : World, ∀ e ∈ (runMain (TopEvent.completes w)).2,
       (e.kind = Kind.error → e.chan = Chan.stderr) ∧
       (e.chan = Chan.stdout → e.kind ≠ Kind.error)) ∧
    (∀ w : World,
       (runMain (TopEvent.completes w)).1 = 1 ↔ verificationResult w = false) ∧
    (∀ partialLog, runMain (TopEvent.interrupted partialLog) =
       (1, partialLog ++ [interruptEntry])) ∧
    interruptEntry.chan = Chan.stdout ∧ interruptEntry.kind = Kind.error ∧
    (∀ m partialLog, runMain (TopEvent.crashed m partialLog) =
       (1, partialLog ++ [crashedEntry m])) ∧
    (∀ m, (crashedEntry m).chan = Chan.stdout ∧
       (crashedEntry m).kind = Kind.error) := by
  refine ⟨fun w e he => ?_, fun w => ?_, fun partialLog => rfl, rfl, rfl,
    fun m partialLog => rfl, fun m => ⟨rfl, rfl⟩⟩
  · have hinv := ((verifyStep1_ok w).2.1 e he).2.2
    exact ⟨hinv.1, fun hc hk => nomatch (hinv.1 hk).symm.trans hc⟩
  · simp only [runMain, mainExitCode]
    cases h : verificationResult w <;> simp [h]

/-- C9, witness: in the tokenless run the single failed-check message is on
the error stream. -/
theorem c9_witness :
    (⟨1, Chan.stderr, Kind.error, 10,
      "[环境错误] 未配置 GITHUB_TOKEN（需在 .env 中设置）".data⟩ : Entry).chan =
      Chan.stderr :=
  (c9_amended.1 tokenlessWorld _ (by decide)).1 rfl
